import Mathlib

/-!
Shallow embedding of the maintenance-task core of `app.py`
(`douglas541/frankstein_integracao`): the daily task generator
(`generate_maintenance_tasks`), the task assigner
(`assign_tasks_to_motoristas` / `send_checklist_to_motorista`) and the chat
webhook state machine (`telegram_webhook`), over an explicit relational
state mirroring the SQLite tables created by `init_db`.

Conventions of the embedding:
* Each SQLite table is a Lean `List` of rows in rowid (insertion) order;
  `SELECT ... WHERE` without `ORDER BY` is `List.filter` / `List.find?`
  (SQLite returns plain tables in rowid order, and `fetchone` takes the
  first row).
* `AUTOINCREMENT` ids are modelled with explicit `Next` counters threaded
  in the state.
* `datetime.now().date()` is an external clock, passed as a `today`
  parameter; network collaborators (LLM, weather) are passed as oracles.
* An uncaught Python exception escaping the request handler is modelled by
  the `ok` flag of the handler result being `false` (the mutations
  committed before the raise are kept, as sqlite3 keeps what was
  explicitly committed).
* Outbound chat messages are collected as `(text, chat_id)` pairs in send
  order; calls to `send_gerente_report` are collected as the list of
  manager ids passed to it.
-/

namespace Frankstein

/-- Python `str.lower()` restricted to the Latin-1 range: ASCII `A`-`Z`
and the accented uppercase letters `À`-`Þ` (except `×`) map down by 32,
everything else is unchanged.  This is what `text.lower()` and
`re.IGNORECASE` do on the Portuguese texts handled by `app.py`. -/
def pyLowerChar (c : Char) : Char :=
  if 'A' ≤ c ∧ c ≤ 'Z' then Char.ofNat (c.toNat + 32)
  else if 0xC0 ≤ c.toNat ∧ c.toNat ≤ 0xDE ∧ c.toNat ≠ 0xD7 then
    Char.ofNat (c.toNat + 32)
  else c

/-- Python `str.lower()` on a whole string (Latin-1 fragment). -/
def pyLower (s : String) : String :=
  String.mk (s.toList.map pyLowerChar)

/-- Python `str.strip()`: drop leading and trailing whitespace. -/
def pyStrip (s : String) : String :=
  String.mk (((s.toList.dropWhile Char.isWhitespace).reverse.dropWhile Char.isWhitespace).reverse)

/-- `re.sub(r'\D', '', s)`: keep only the decimal digits of `s`. -/
def onlyDigits (s : String) : String :=
  String.mk (s.toList.filter Char.isDigit)

/-- Python `s[2:]` on a string: drop the first two characters
(total: shorter strings give `""`). -/
def dropTwo (s : String) : String :=
  String.mk (s.toList.drop 2)

/-- Value of a nonempty digit list, most significant first
(Python `int(...)` on the digits captured by `(\d+)`). -/
def digitsToNat (ds : List Char) : Nat :=
  ds.foldl (fun acc c => acc * 10 + (c.toNat - '0'.toNat)) 0

/-- Drop the literal prefix `p` from `cs`, if present. -/
def dropPrefixChars : List Char → List Char → Option (List Char)
  | [], cs => some cs
  | _ :: _, [] => none
  | p :: ps, c :: cs => if c = p then dropPrefixChars ps cs else none

/-- `re.match(r'Tarefa (\d+) concluída', text, re.IGNORECASE)`:
anchored at the start of `text` (a prefix match: trailing characters are
allowed), case-insensitive.  Returns the captured number when the pattern
matches. -/
def parseTarefa (text : String) : Option Nat :=
  match dropPrefixChars "tarefa ".toList (pyLower text).toList with
  | none => none
  | some rest =>
    let ds := rest.takeWhile Char.isDigit
    if ds.isEmpty then none
    else
      match dropPrefixChars " concluída".toList (rest.drop ds.length) with
      | none => none
      | some _ => some (digitsToNat ds)

/-- The `MACHINE_MODELS` catalog of `app.py` (the uncommented entries),
in dict insertion order. -/
def MACHINE_MODELS : List (String × List String) :=
  [("R Series", ["8260R", "8285R", "8310R", "8335R", "8360R"]),
   ("J Series 7200", ["7200J", "7215J", "7230J"]),
   ("M Series", ["6155M", "6175M", "6195M"])]

/-- `infer_series_from_model`: first catalog series whose model list
contains `model`, else `None`. -/
def infer_series_from_model (model : String) : Option String :=
  (MACHINE_MODELS.find? (fun p => p.2.contains model)).map (fun p => p.1)

/-- The `machine_series_manuals` dict of `generate_maintenance_tasks`. -/
def machine_series_manuals : List (String × String) :=
  [("R Series", "manualOperador_7200J_7215J_7230J.pdf"),
   ("J Series 7200", "manualOperador_7200J_7215J_7230J.pdf"),
   ("M Series", "manualOperador_7200J_7215J_7230J.pdf")]

/-- A row of the `users` table (the columns the modelled code reads).
Note the person-name column is `full_name`: there is no `nome` column. -/
structure User where
  id : Nat
  full_name : String
  telefone : String
  chat_id : Option String
  cidade : String
  estado : String
  deriving Repr, DecidableEq

/-- A row of `auxiliary_people` (`telefone` is `UNIQUE NOT NULL`,
`role` is `gerente` or `motorista`). -/
structure AuxPerson where
  id : Nat
  user_id : Nat
  name : String
  email : String
  telefone : String
  chat_id : Option String
  role : String
  deriving Repr, DecidableEq

/-- A row of `machines`. -/
structure Machine where
  id : Nat
  user_id : Nat
  motorista_id : Option Nat
  model : String
  deriving Repr, DecidableEq

/-- A row of the `machine_managers` relation. -/
structure MachineManager where
  machine_id : Nat
  gerente_id : Nat
  deriving Repr, DecidableEq

/-- A row of `maintenance_task_templates`; `tasks` holds the parsed task
list (stored as `str(list)` and read back with `eval`, a round trip). -/
structure Template where
  model : String
  cidade : String
  estado : String
  date : String
  tasks : List String
  deriving Repr, DecidableEq

/-- A row of `maintenance_tasks` (one task instance per driver per
assignment). -/
structure TaskInstance where
  id : Nat
  motorista_id : Nat
  date : String
  deriving Repr, DecidableEq

/-- A row of `maintenance_task_items`; `status` defaults to `pendente`. -/
structure Item where
  id : Nat
  maintenance_task_id : Nat
  task : String
  status : String
  deriving Repr, DecidableEq

/-- A row of `conversation_states`, keyed by `chat_id`. -/
structure ConvState where
  chat_id : String
  state : String
  new_aux_name : Option String
  new_aux_email : Option String
  new_aux_phone : Option String
  deriving Repr, DecidableEq

/-- The database state: one list per table, plus `AUTOINCREMENT`
counters for the tables whose fresh ids the modelled code uses. -/
structure DB where
  users : List User
  auxPeople : List AuxPerson
  machines : List Machine
  machineManagers : List MachineManager
  templates : List Template
  taskInstances : List TaskInstance
  taskItems : List Item
  convStates : List ConvState
  auxNext : Nat
  instNext : Nat
  itemNext : Nat
  deriving Repr, DecidableEq

/-! ### The chat webhook (`telegram_webhook`) -/

/-- Payload of an incoming bot update's `message`: a text message, a
shared contact, or neither. -/
inductive Payload where
  | text (t : String)
  | contact (phone : String)
  | neither
  deriving Repr, DecidableEq

/-- An incoming bot update: optionally a `message` carrying the chat id
and its payload (`str(message['chat']['id'])` plus `text`/`contact`). -/
structure Update where
  message : Option (String × Payload)
  deriving Repr, DecidableEq

/-- Result of one webhook invocation: the database afterwards, the chat
messages sent (text, chat id) in order, the manager ids passed to
`send_gerente_report`, and whether the handler returned `'OK'`
(`ok = false` models an uncaught Python exception escaping the handler). -/
structure WebhookOut where
  db : DB
  sent : List (String × String)
  reports : List Nat
  ok : Bool
  deriving Repr, DecidableEq

def STATE_INITIAL : String := "initial"

def STATE_COLLECT_NAME : String := "collect_name"

def STATE_COLLECT_EMAIL : String := "collect_email"

def STATE_COLLECT_PHONE : String := "collect_phone"

def STATE_COLLECT_ROLE : String := "collect_role"

def MSG_ASK_NAME : String :=
  "Você gostaria de adicionar uma nova pessoa auxiliar? Por favor, envie o nome da pessoa."

def MSG_ASK_EMAIL : String := "Por favor, envie o email da pessoa."

def MSG_ASK_PHONE : String := "Por favor, envie o número de telefone da pessoa."

def MSG_ASK_ROLE : String := "Por favor, envie a função da pessoa (gerente ou motorista)."

def MSG_ROLE_INVALID : String :=
  "Função inválida. Por favor, envie \x27gerente\x27 ou \x27motorista\x27."

def msgAuxAdded (nm : String) : String :=
  "Pessoa auxiliar \x27" ++ nm ++ "\x27 adicionada com sucesso!"

def MSG_RESET : String :=
  "Ocorreu um erro. Vamos reiniciar o processo. Por favor, envie o nome da pessoa auxiliar."

def msgTaskDone (n : Nat) : String :=
  "Tarefa " ++ toString n ++ " marcada como concluída."

def MSG_INVALID_TASK : String := "Número de tarefa inválido."

def MSG_HINT : String :=
  "Mensagem não reconhecida. Para marcar uma tarefa como concluída, responda com o número da tarefa seguido de \x27concluída\x27. Por exemplo: \x27Tarefa 1 concluída\x27"

def MSG_NO_TASKS : String := "Nenhuma tarefa de manutenção atribuída para hoje."

def MSG_AUX_BOUND : String := "Chat ID atualizado com sucesso. Bem-vindo!"

def MSG_NOT_FOUND : String := "Número de telefone não encontrado em nosso cadastro."

def MSG_ASK_CONTACT : String := "Por favor, envie seu número de telefone para prosseguir."

/-- `SELECT * FROM conversation_states WHERE chat_id = ?` (first row). -/
def findConvState (db : DB) (cid : String) : Option ConvState :=
  db.convStates.find? (fun s => s.chat_id = cid)

/-- `SELECT * FROM users WHERE chat_id = ?` (first row; SQL `NULL = ?`
never matches). -/
def findUserByChat (db : DB) (cid : String) : Option User :=
  db.users.find? (fun u => u.chat_id = some cid)

/-- `SELECT * FROM auxiliary_people WHERE chat_id = ?` (first row). -/
def findAuxByChat (db : DB) (cid : String) : Option AuxPerson :=
  db.auxPeople.find? (fun a => a.chat_id = some cid)

/-- `INSERT INTO conversation_states (chat_id, state) VALUES (?, ?)
ON CONFLICT(chat_id) DO UPDATE SET state = excluded.state`: on conflict
only the state tag changes, the scratch fields are kept. -/
def upsertConvState (states : List ConvState) (cid st : String) : List ConvState :=
  if states.any (fun s => s.chat_id = cid) then
    states.map (fun s => if s.chat_id = cid then { s with state := st } else s)
  else states ++ [⟨cid, st, none, none, none⟩]

/-- `UPDATE conversation_states SET new_aux_name = ?, state = ? WHERE chat_id = ?`. -/
def setAuxName (states : List ConvState) (cid v st : String) : List ConvState :=
  states.map (fun s => if s.chat_id = cid then { s with new_aux_name := some v, state := st } else s)

/-- `UPDATE conversation_states SET new_aux_email = ?, state = ? WHERE chat_id = ?`. -/
def setAuxEmail (states : List ConvState) (cid v st : String) : List ConvState :=
  states.map (fun s => if s.chat_id = cid then { s with new_aux_email := some v, state := st } else s)

/-- `UPDATE conversation_states SET new_aux_phone = ?, state = ? WHERE chat_id = ?`. -/
def setAuxPhone (states : List ConvState) (cid v st : String) : List ConvState :=
  states.map (fun s => if s.chat_id = cid then { s with new_aux_phone := some v, state := st } else s)

/-- `DELETE FROM conversation_states WHERE chat_id = ?`. -/
def deleteConvState (states : List ConvState) (cid : String) : List ConvState :=
  states.filter (fun s => ¬ (s.chat_id = cid))

/-- `UPDATE maintenance_task_items SET status = 'concluída' WHERE id = ?`. -/
def markConcluida (items : List Item) (iid : Nat) : List Item :=
  items.map (fun it => if it.id = iid then { it with status := "concluída" } else it)

/-- `SELECT COUNT(*) FROM maintenance_task_items
WHERE maintenance_task_id = ? AND status = 'pendente'`. -/
def pendingCount (items : List Item) (tid : Nat) : Nat :=
  (items.filter (fun it => it.maintenance_task_id = tid ∧ it.status = "pendente")).length

/-- The manager-resolution join of the webhook
(`machine_managers` joined to `auxiliary_people` and `machines`,
`WHERE m.motorista_id = ?`, first row): the first assignment row whose
machine is driven by `mid` and whose manager id exists in
`auxiliary_people`. -/
def findGerente (db : DB) (mid : Nat) : Option Nat :=
  (db.machineManagers.find? (fun mm =>
      db.auxPeople.any (fun ap => ap.id = mm.gerente_id) ∧
      db.machines.any (fun m => m.id = mm.machine_id ∧ m.motorista_id = some mid))).map
    (fun mm => mm.gerente_id)

/-- The registered-user branch of the webhook: the five-state
auxiliary-person collection flow.  In the `collect_role` success branch,
inserting a person whose phone collides with an existing
`auxiliary_people.telefone` (a `UNIQUE` column), or whose scratch fields
are still `NULL` (`NOT NULL` columns), raises `sqlite3.IntegrityError`
out of the handler (`ok = false`). -/
def webhookUserFlow (db : DB) (chat_id text user_state : String) (user : User) : WebhookOut :=
  if user_state = STATE_INITIAL then
    ⟨{ db with convStates := upsertConvState db.convStates chat_id STATE_COLLECT_NAME },
     [(MSG_ASK_NAME, chat_id)], [], true⟩
  else if user_state = STATE_COLLECT_NAME then
    ⟨{ db with convStates := setAuxName db.convStates chat_id text STATE_COLLECT_EMAIL },
     [(MSG_ASK_EMAIL, chat_id)], [], true⟩
  else if user_state = STATE_COLLECT_EMAIL then
    ⟨{ db with convStates := setAuxEmail db.convStates chat_id text STATE_COLLECT_PHONE },
     [(MSG_ASK_PHONE, chat_id)], [], true⟩
  else if user_state = STATE_COLLECT_PHONE then
    ⟨{ db with convStates := setAuxPhone db.convStates chat_id text STATE_COLLECT_ROLE },
     [(MSG_ASK_ROLE, chat_id)], [], true⟩
  else if user_state = STATE_COLLECT_ROLE then
    if pyLower text = "gerente" ∨ pyLower text = "motorista" then
      match findConvState db chat_id with
      | some sd =>
        match sd.new_aux_name, sd.new_aux_email, sd.new_aux_phone with
        | some nm, some em, some ph =>
          if db.auxPeople.any (fun a => a.telefone = ph) then
            ⟨db, [], [], false⟩
          else
            ⟨{ db with
                auxPeople := db.auxPeople ++
                  [⟨db.auxNext, user.id, nm, em, ph, none, pyLower text⟩],
                auxNext := db.auxNext + 1,
                convStates := deleteConvState db.convStates chat_id },
             [(msgAuxAdded nm, chat_id)], [], true⟩
        | _, _, _ => ⟨db, [], [], false⟩
      | none => ⟨db, [], [], false⟩
    else
      ⟨db, [(MSG_ROLE_INVALID, chat_id)], [], true⟩
  else
    ⟨{ db with convStates :=
        upsertConvState (deleteConvState db.convStates chat_id) chat_id STATE_COLLECT_NAME },
     [(MSG_RESET, chat_id)], [], true⟩

/-- The driver branch of the webhook: parse `Tarefa N concluída` against
today's task instance, mark the `N`-th listed item completed, and when no
item of the instance is left `pendente`, resolve the manager and call
`send_gerente_report` once. -/
def webhookMotoristaFlow (db : DB) (today chat_id text : String) (motorista : AuxPerson) :
    WebhookOut :=
  match db.taskInstances.find? (fun i => i.motorista_id = motorista.id ∧ i.date = today) with
  | none => ⟨db, [(MSG_NO_TASKS, chat_id)], [], true⟩
  | some inst =>
    let tasks := db.taskItems.filter (fun it => it.maintenance_task_id = inst.id)
    match parseTarefa text with
    | none => ⟨db, [(MSG_HINT, chat_id)], [], true⟩
    | some n =>
      if h : 1 ≤ n ∧ n ≤ tasks.length then
        let item := tasks.get ⟨n - 1, by omega⟩
        let items2 := markConcluida db.taskItems item.id
        let reports :=
          if pendingCount items2 inst.id = 0 then
            match findGerente db motorista.id with
            | some g => [g]
            | none => []
          else []
        ⟨{ db with taskItems := items2 }, [(msgTaskDone n, chat_id)], reports, true⟩
      else ⟨db, [(MSG_INVALID_TASK, chat_id)], [], true⟩

/-- The unknown-chat branch of the webhook: bind the chat id by shared
phone contact.  A match in `users` commits the chat-id update and then
builds the greeting from the nonexistent `nome` column of the row
(the table defines `full_name`), raising `IndexError` out of the handler
(`ok = false`, greeting never sent). -/
def webhookUnknownFlow (db : DB) (chat_id phone_number : String) : WebhookOut :=
  if phone_number ≠ "" then
    let digits := dropTwo (onlyDigits phone_number)
    match db.users.find? (fun u => u.telefone = digits) with
    | some u =>
      let users2 := db.users.map
        (fun v => if v.id = u.id then { v with chat_id := some chat_id } else v)
      ⟨{ db with users := users2 }, [], [], false⟩
    | none =>
      match db.auxPeople.find? (fun a => a.telefone = digits) with
      | some a =>
        let aux2 := db.auxPeople.map
          (fun b => if b.id = a.id then { b with chat_id := some chat_id } else b)
        ⟨{ db with auxPeople := aux2 }, [(MSG_AUX_BOUND, chat_id)], [], true⟩
      | none => ⟨db, [(MSG_NOT_FOUND, chat_id)], [], true⟩
  else ⟨db, [(MSG_ASK_CONTACT, chat_id)], [], true⟩

/-- The `/webhook` handler `telegram_webhook` of `app.py`: dispatches on
whether the chat id belongs to a registered user, a registered auxiliary
person, or is unknown.  `today` is `str(datetime.now().date())`. -/
def telegram_webhook (db : DB) (today : String) (upd : Update) : WebhookOut :=
  match upd.message with
  | none => ⟨db, [], [], true⟩
  | some (chat_id, payload) =>
    let text := match payload with | .text t => pyStrip t | _ => ""
    let phone_number := match payload with | .contact p => pyStrip p | _ => ""
    let user_state := match findConvState db chat_id with
      | some s => s.state
      | none => STATE_INITIAL
    match findUserByChat db chat_id with
    | some user => webhookUserFlow db chat_id text user_state user
    | none =>
      match findAuxByChat db chat_id with
      | some motorista => webhookMotoristaFlow db today chat_id text motorista
      | none => webhookUnknownFlow db chat_id phone_number

/-! ### The daily task generator (`generate_maintenance_tasks`) -/

/-- Outcome of the per-combination external chain of
`generate_maintenance_tasks` (LLM session + geocoding/weather +
`llm.qa.invoke` + `ast.literal_eval` of the response):
* `ok tasks` — the response parsed to a Python list of strings;
* `parseFail` — `ast.literal_eval` raised or the value was not a list
  (caught by the inner `try`, `maintenance_tasks = None`);
* `llmFail` — the LLM or network call raised (caught by the outer `try`,
  `maintenance_tasks = None`). -/
inductive ComboOutcome where
  | ok (tasks : List String)
  | parseFail
  | llmFail
  deriving Repr, DecidableEq

/-- Oracle giving each `(model, cidade, estado)` combination's external
outcome within one generator run. -/
def GenEnv : Type := String → String → String → ComboOutcome

/-- Deduplication keeping first occurrences, with an accumulator of the
elements already seen (SQL `DISTINCT`). -/
def dedupGo {α : Type} [DecidableEq α] : List α → List α → List α
  | [], _ => []
  | x :: xs, seen => if x ∈ seen then dedupGo xs seen else x :: dedupGo xs (x :: seen)

/-- SQL `SELECT DISTINCT`, keeping the first occurrence of each row. -/
def dedupFirst {α : Type} [DecidableEq α] (l : List α) : List α :=
  dedupGo l []

/-- `SELECT DISTINCT m.model, u.cidade, u.estado FROM machines m JOIN
users u ON m.user_id = u.id`. -/
def combosOf (db : DB) : List (String × String × String) :=
  dedupFirst (db.machines.filterMap (fun m =>
    (db.users.find? (fun u => u.id = m.user_id)).map
      (fun u => (m.model, u.cidade, u.estado))))

/-- Whether a combination's model maps through
`infer_series_from_model` to a series present in
`machine_series_manuals` (the `if series in machine_series_manuals`
guard). -/
def seriesHasManual (model : String) : Bool :=
  match infer_series_from_model model with
  | some series => machine_series_manuals.any (fun p => p.1 = series)
  | none => false

/-- One iteration of the generator's combination loop: when the model's
series has a manual, record the LLM attempt and, if the external chain
produced a parsed list, insert one template row for the combination and
today's date; on `parseFail` or `llmFail` insert nothing.  Returns
(new templates table, LLM attempts recorded). -/
def generateCombo (env : GenEnv) (today : String)
    (acc : List Template × List (String × String × String))
    (combo : String × String × String) :
    List Template × List (String × String × String) :=
  let (model, cidade, estado) := combo
  if seriesHasManual model then
    match env model cidade estado with
    | .ok tasks =>
      (acc.1 ++ [⟨model, cidade, estado, today, tasks⟩], acc.2 ++ [combo])
    | .parseFail => (acc.1, acc.2 ++ [combo])
    | .llmFail => (acc.1, acc.2 ++ [combo])
  else acc

/-- `generate_maintenance_tasks`: if any template row exists for today,
the whole run is skipped; otherwise every distinct
`(model, cidade, estado)` combination is processed once, per-combination
failures only skip that combination.  Returns the database afterwards
and the list of combinations for which the LLM chain was attempted. -/
def generate_maintenance_tasks (env : GenEnv) (db : DB) (today : String) :
    DB × List (String × String × String) :=
  if db.templates.any (fun t => t.date = today) then (db, [])
  else
    let res := (combosOf db).foldl (generateCombo env today) (db.templates, [])
    ({ db with templates := res.1 }, res.2)

/-! ### The task assigner (`assign_tasks_to_motoristas`) -/

/-- The driver query of the assigner: `auxiliary_people` with
`role = 'motorista'` joined to their owning user for `cidade`/`estado`. -/
def motoristasOf (db : DB) : List (AuxPerson × String × String) :=
  db.auxPeople.filterMap (fun a =>
    if a.role = "motorista" then
      (db.users.find? (fun u => u.id = a.user_id)).map (fun u => (a, u.cidade, u.estado))
    else none)

/-- `SELECT DISTINCT m.model FROM machines m WHERE m.motorista_id = ?`. -/
def modelsOf (db : DB) (mid : Nat) : List String :=
  dedupFirst (db.machines.filterMap (fun m =>
    if m.motorista_id = some mid then some m.model else none))

/-- `SELECT tasks FROM maintenance_task_templates WHERE model = ? AND
cidade = ? AND estado = ? AND date = ?` (first row). -/
def findTemplate (db : DB) (model cidade estado today : String) : Option Template :=
  db.templates.find? (fun t =>
    t.model = model ∧ t.cidade = cidade ∧ t.estado = estado ∧ t.date = today)

/-- The checklist text built by `send_checklist_to_motorista`:
greeting, the tasks numbered from 1, and the usage instructions. -/
def checklistMessage (nm : String) (tasks : List String) : String :=
  "Olá " ++ nm ++ ",\n\nAqui está o checklist de manutenção preventiva para hoje:\n\n" ++
  String.join ((tasks.enumFrom 1).map (fun p => toString p.1 ++ ". " ++ p.2 ++ "\n")) ++
  "\nPara marcar uma tarefa como concluída, responda com o número da tarefa seguido de \x27concluída\x27. Por exemplo: \x27Tarefa 1 concluída\x27"

/-- `send_checklist_to_motorista`: resolve the driver's chat id by phone
number (`SELECT chat_id FROM auxiliary_people WHERE telefone = ?`, first
row); when absent or falsy (`if not chat_id`) nothing is sent, otherwise
the checklist text message is sent to that chat id (the optional audio
rendition is an external side effect not modelled). -/
def send_checklist_to_motorista (db : DB) (nm telefone : String) (tasks : List String) :
    List (String × String) :=
  match db.auxPeople.find? (fun a => a.telefone = telefone) with
  | none => []
  | some a =>
    match a.chat_id with
    | none => []
    | some cid => if cid = "" then [] else [(checklistMessage nm tasks, cid)]

/-- Items inserted for one new task instance: one row per task string,
`status` left to its `'pendente'` default, ids from the item counter.
Returns the rows and the next free item id. -/
def mkItems (itemNext tid : Nat) (tasks : List String) : List Item × Nat :=
  (tasks.enum.map (fun p => (⟨itemNext + p.1, tid, p.2, "pendente"⟩ : Item)),
   itemNext + tasks.length)

/-- One iteration of the assigner's model loop for one driver: when a
template for `(model, cidade, estado, today)` exists, insert a new task
instance for the driver, insert one pending item per task string, and
send the checklist; otherwise log and skip. -/
def assignModelStep (today : String) (m : AuxPerson) (cidade estado : String)
    (acc : DB × List (String × String)) (model : String) : DB × List (String × String) :=
  let db := acc.1
  match findTemplate db model cidade estado today with
  | none => acc
  | some tpl =>
    let inst : TaskInstance := ⟨db.instNext, m.id, today⟩
    let mk := mkItems db.itemNext inst.id tpl.tasks
    let db2 := { db with
      taskInstances := db.taskInstances ++ [inst],
      taskItems := db.taskItems ++ mk.1,
      instNext := db.instNext + 1,
      itemNext := mk.2 }
    (db2, acc.2 ++ send_checklist_to_motorista db2 m.name m.telefone tpl.tasks)

/-- The assigner's body for one driver: iterate over the distinct models
of the machines the driver operates. -/
def assignDriver (today : String) (acc : DB × List (String × String))
    (entry : AuxPerson × String × String) : DB × List (String × String) :=
  (modelsOf acc.1 entry.1.id).foldl
    (assignModelStep today entry.1 entry.2.1 entry.2.2) acc

/-- `assign_tasks_to_motoristas`: fan out today's templates to every
driver.  Returns the database afterwards and the checklist messages
sent. -/
def assign_tasks_to_motoristas (db : DB) (today : String) : DB × List (String × String) :=
  (motoristasOf db).foldl (assignDriver today) (db, [])

/-! ### The system's write operations on `maintenance_task_items` -/

/-- The operations of the system that write the `maintenance_task_items`
table (the webhook's completion update and the assigner's inserts; the
generator is included as the third task-pipeline entry point — every
other route of `app.py` only reads the table). -/
inductive Op where
  | webhook (today : String) (upd : Update)
  | assign (today : String)
  | generate (env : GenEnv) (today : String)

/-- The database after running one operation. -/
def stepOp (db : DB) : Op → DB
  | .webhook today upd => (telegram_webhook db today upd).db
  | .assign today => (assign_tasks_to_motoristas db today).1
  | .generate env today => (generate_maintenance_tasks env db today).1

/-! ### Observations used by the theorem statements -/

/-- C3: running the Task Generator when at least one template row already
exists for today's date is a no-op — the database is unchanged (no
template rows inserted) and no LLM chain is attempted. -/
theorem generator_noop_when_template_exists_today (env : GenEnv) (db : DB) (today : String)
    (h : db.templates.any (fun t => t.date = today) = true) :
    generate_maintenance_tasks env db today = (db, []) := by
  simp [generate_maintenance_tasks, h]

/-- A database that already has a template for the day. -/
def dbGuard : DB :=
  { users := [⟨1, "Alice", "31999998888", none, "Uberlândia", "MG"⟩],
    auxPeople := [],
    machines := [⟨5, 1, none, "7200J"⟩],
    machineManagers := [],
    templates := [⟨"7200J", "Uberlândia", "MG", "2026-10-12", ["trocar óleo"]⟩],
    taskInstances := [], taskItems := [], convStates := [],
    auxNext := 1, instNext := 1, itemNext := 1 }

/-- Witness for C3 at a concrete database with one template for today. -/
theorem generator_noop_when_template_exists_today_witness :
    dbGuard.templates.any (fun t => t.date = "2026-10-12") = true ∧
    generate_maintenance_tasks (fun _ _ _ => ComboOutcome.ok ["x"]) dbGuard "2026-10-12" =
      (dbGuard, []) :=
  ⟨by decide,
   generator_noop_when_template_exists_today (fun _ _ _ => ComboOutcome.ok ["x"])
     dbGuard "2026-10-12" (by decide)⟩

/-! ### C5 / C9 — the `nome` column bug in the shared-contact branch -/

/-- A second concrete database for the webhook-safety claim. -/
def dbContact9 : DB :=
  { users := [⟨7, "Bruno", "11911112222", none, "Campinas", "SP"⟩],
    auxPeople := [], machines := [], machineManagers := [], templates := [],
    taskInstances := [], taskItems := [], convStates := [],
    auxNext := 1, instNext := 1, itemNext := 1 }

/-- C9 (code bug): the webhook handler does not always terminate with the
`'OK'` acknowledgment — on a shared-contact payload matching a registered
user's phone it raises (`IndexError` on the nonexistent `nome` column)
instead of answering `'OK'`. -/
theorem webhook_raises_on_user_contact :
    (telegram_webhook dbContact9 "2026-10-12"
        ⟨some ("55", Payload.contact "+55 11 91111-2222")⟩).ok = false := by
  decide

/-! ### C4 — the `collect_role` state -/

lemma markConcluida_getElem? (l : List Item) (iid j : Nat) :
    (markConcluida l iid)[j]? =
      (l[j]?).map (fun it => if it.id = iid then { it with status := "concluída" } else it) := by
  simp [markConcluida]

/-- Explicit form of the driver branch on an in-range completion
message. -/
lemma motoristaFlow_mark (db : DB) (today chat_id text : String) (motorista : AuxPerson)
    (inst : TaskInstance) (n : Nat) (it : Item)
    (hi : db.taskInstances.find? (fun i => i.motorista_id = motorista.id ∧ i.date = today) =
      some inst)
    (hp : parseTarefa text = some n)
    (hn : 1 ≤ n ∧
      n ≤ (db.taskItems.filter (fun x => x.maintenance_task_id = inst.id)).length)
    (hit : (db.taskItems.filter (fun x => x.maintenance_task_id = inst.id))[n - 1]? = some it) :
    webhookMotoristaFlow db today chat_id text motorista =
      ⟨{ db with taskItems := markConcluida db.taskItems it.id },
       [(msgTaskDone n, chat_id)],
       if pendingCount (markConcluida db.taskItems it.id) inst.id = 0 then
         match findGerente db motorista.id with
         | some g => [g]
         | none => []
       else [], true⟩ := by
  have hlt : n - 1 < (db.taskItems.filter (fun x => x.maintenance_task_id = inst.id)).length := by
    omega
  have h2 := List.getElem?_eq_getElem hlt
  rw [hit] at h2
  have hget : (db.taskItems.filter (fun x => x.maintenance_task_id = inst.id)).get ⟨n - 1, hlt⟩ = it := by
    rw [List.get_eq_getElem]
    exact (Option.some.inj h2).symm
  unfold webhookMotoristaFlow
  rw [hi]
  simp only [hp]
  rw [dif_pos hn]
  rw [← hget]

/-- A database with a driver (chat `200`), a manager over the driver's
machine, and a two-item task instance for the day. -/
def dbDriver : DB :=
  { users := [],
    auxPeople := [⟨10, 1, "João", "j", "319", some "200", "motorista"⟩,
                  ⟨11, 1, "G", "g", "329", some "300", "gerente"⟩],
    machines := [⟨5, 1, some 10, "7200J"⟩],
    machineManagers := [⟨5, 11⟩],
    templates := [],
    taskInstances := [⟨1, 10, "2026-10-12"⟩],
    taskItems := [⟨1, 1, "A", "pendente"⟩, ⟨2, 1, "B", "pendente"⟩],
    convStates := [],
    auxNext := 12, instNext := 2, itemNext := 3 }

lemma mem_dedupGo {α : Type} [DecidableEq α] {l seen : List α} {x : α}
    (h : x ∈ dedupGo l seen) : x ∈ l ∧ x ∉ seen := by
  induction l generalizing seen with
  | nil => cases h
  | cons a l ih =>
    by_cases ha : a ∈ seen
    · rw [dedupGo, if_pos ha] at h
      exact ⟨List.mem_cons_of_mem _ (ih h).1, (ih h).2⟩
    · rw [dedupGo, if_neg ha] at h
      rcases List.mem_cons.mp h with he | hm
      · exact ⟨he ▸ List.mem_cons_self a l, he ▸ ha⟩
      · exact ⟨List.mem_cons_of_mem _ (ih hm).1,
          fun hx => (ih hm).2 (List.mem_cons_of_mem _ hx)⟩

lemma dedupGo_nodup {α : Type} [DecidableEq α] (l : List α) :
    ∀ seen, (dedupGo l seen).Nodup := by
  induction l with
  | nil => intro seen; rw [dedupGo]; exact List.nodup_nil
  | cons a l ih =>
    intro seen
    by_cases ha : a ∈ seen
    · rw [dedupGo, if_pos ha]; exact ih _
    · rw [dedupGo, if_neg ha]
      refine List.Nodup.cons ?_ (ih _)
      intro hmem
      exact (mem_dedupGo hmem).2 (List.mem_cons_self a seen)

/-- `SELECT DISTINCT` produces pairwise-distinct rows. -/
lemma dedupFirst_nodup {α : Type} [DecidableEq α] (l : List α) : (dedupFirst l).Nodup :=
  dedupGo_nodup l []

lemma generateCombo_foldl (env : GenEnv) (today : String)
    (l : List (String × String × String)) (ts : List Template)
    (al : List (String × String × String)) :
    l.foldl (generateCombo env today) (ts, al) =
      (ts ++ l.filterMap (fun c =>
          if seriesHasManual c.1 then
            match env c.1 c.2.1 c.2.2 with
            | ComboOutcome.ok tks => some ⟨c.1, c.2.1, c.2.2, today, tks⟩
            | _ => none
          else none),
       al ++ l.filter (fun c => seriesHasManual c.1)) := by
  induction l generalizing ts al with
  | nil => simp
  | cons c l ih =>
    obtain ⟨m, ci, es⟩ := c
    by_cases hm : seriesHasManual m
    · cases he : env m ci es <;>
        simp [generateCombo, hm, he, ih, List.filterMap_cons, List.filter_cons]
    · simp [generateCombo, hm, ih, List.filterMap_cons, List.filter_cons]

/-- C8: when the day guard does not fire, one generator run attempts the
LLM chain exactly once for each distinct combination whose model has a
manual, and inserts a template exactly for those attempts whose external
chain returned a parsed list — a failure (LLM/network or parse) of one
combination only skips that combination, and every other combination of
the run is still processed. -/
theorem generator_per_combination_isolation (env : GenEnv) (db : DB) (today : String)
    (hg : db.templates.any (fun t => t.date = today) = false) :
    (generate_maintenance_tasks env db today).1.templates =
      db.templates ++ (combosOf db).filterMap (fun c =>
        if seriesHasManual c.1 then
          match env c.1 c.2.1 c.2.2 with
          | ComboOutcome.ok tks => some ⟨c.1, c.2.1, c.2.2, today, tks⟩
          | _ => none
        else none) ∧
    (generate_maintenance_tasks env db today).2 =
      (combosOf db).filter (fun c => seriesHasManual c.1) ∧
    (generate_maintenance_tasks env db today).2.Nodup := by
  have hrun : generate_maintenance_tasks env db today =
      ({ db with templates := ((combosOf db).foldl (generateCombo env today) (db.templates, [])).1 },
       ((combosOf db).foldl (generateCombo env today) (db.templates, [])).2) := by
    simp [generate_maintenance_tasks, hg]
  rw [hrun, generateCombo_foldl]
  refine ⟨rfl, by simp, ?_⟩
  simp only [List.nil_append]
  exact (dedupFirst_nodup _).filter _

/-- Generator environment where the `7200J` combination's LLM call
fails and every other combination parses to a one-task list. -/
def envSplit : GenEnv :=
  fun m _ _ => if m = "7200J" then ComboOutcome.llmFail else ComboOutcome.ok ["T1"]

/-- Two owners in different cities with three machines: a `7200J` (whose
LLM call will fail), an `8260R`, and a model with no manual. -/
def dbGen : DB :=
  { users := [⟨1, "A", "t1", none, "C1", "S"⟩, ⟨2, "B", "t2", none, "C2", "S"⟩],
    auxPeople := [], machines := [⟨1, 1, none, "7200J"⟩, ⟨2, 2, none, "8260R"⟩,
                                  ⟨3, 1, none, "UNKNOWN"⟩],
    machineManagers := [], templates := [],
    taskInstances := [], taskItems := [], convStates := [],
    auxNext := 1, instNext := 1, itemNext := 1 }

/-- Witness for C8: the `7200J` failure does not abort the run — the
`8260R` combination still gets its template, the no-manual model is
skipped without an attempt, and each eligible combination is attempted
exactly once. -/
theorem generator_per_combination_isolation_witness :
    (generate_maintenance_tasks envSplit dbGen "2026-10-12").1.templates =
      [⟨"8260R", "C2", "S", "2026-10-12", ["T1"]⟩] ∧
    (generate_maintenance_tasks envSplit dbGen "2026-10-12").2 =
      [("7200J", "C1", "S"), ("8260R", "C2", "S")] := by
  have h := generator_per_combination_isolation envSplit dbGen "2026-10-12" (by decide)
  exact ⟨h.1.trans (by decide), h.2.1.trans (by decide)⟩

/-! ### C6 / C10 — assigner characterization -/

/-- Equality of the tables the assigner reads (it only ever writes
`maintenance_tasks` and `maintenance_task_items`). -/
def ROEq (db1 db2 : DB) : Prop :=
  db1.users = db2.users ∧ db1.auxPeople = db2.auxPeople ∧
  db1.machines = db2.machines ∧ db1.templates = db2.templates

lemma ROEq.refl (db : DB) : ROEq db db := ⟨rfl, rfl, rfl, rfl⟩

lemma assignModelStep_ro (today : String) (m : AuxPerson) (ci es : String)
    (acc : DB × List (String × String)) (model : String) :
    ROEq (assignModelStep today m ci es acc model).1 acc.1 ∧
    (assignModelStep today m ci es acc model).1.convStates = acc.1.convStates := by
  simp only [assignModelStep]
  cases h : findTemplate acc.1 model ci es today <;>
    exact ⟨⟨rfl, rfl, rfl, rfl⟩, rfl⟩

lemma assignModelStep_items (today : String) (m : AuxPerson) (ci es : String)
    (acc : DB × List (String × String)) (model : String) :
    ∃ ext, (assignModelStep today m ci es acc model).1.taskItems = acc.1.taskItems ++ ext ∧
      ∀ it ∈ ext, it.status = "pendente" ∧
        ∃ tpl ∈ acc.1.templates, tpl.date = today ∧ it.task ∈ tpl.tasks := by
  simp only [assignModelStep]
  cases h : findTemplate acc.1 model ci es today with
  | none => exact ⟨[], by simp⟩
  | some tpl =>
    refine ⟨(mkItems acc.1.itemNext acc.1.instNext tpl.tasks).1, by simp, ?_⟩
    intro it hit
    have htpl : tpl ∈ acc.1.templates ∧ tpl.date = today := by
      have hmem := List.mem_of_find?_eq_some h
      have hpred := List.find?_some h
      simp at hpred
      exact ⟨hmem, hpred.2.2.2⟩
    unfold mkItems at hit
    simp only [List.mem_map] at hit
    obtain ⟨p, hp, rfl⟩ := hit
    refine ⟨rfl, tpl, htpl.1, htpl.2, ?_⟩
    have h2 := List.mem_enum_iff_getElem?.mp hp
    exact List.getElem?_mem h2

lemma ROEq.trans {a b c : DB} (h1 : ROEq a b) (h2 : ROEq b c) : ROEq a c :=
  ⟨h1.1.trans h2.1, h1.2.1.trans h2.2.1, h1.2.2.1.trans h2.2.2.1, h1.2.2.2.trans h2.2.2.2⟩

lemma assignFoldModels_ro (today : String) (m : AuxPerson) (ci es : String)
    (l : List String) (acc : DB × List (String × String)) :
    ROEq (l.foldl (assignModelStep today m ci es) acc).1 acc.1 ∧
    (l.foldl (assignModelStep today m ci es) acc).1.convStates = acc.1.convStates := by
  induction l generalizing acc with
  | nil => exact ⟨ROEq.refl _, rfl⟩
  | cons mo l ih =>
    rw [List.foldl_cons]
    have hs := assignModelStep_ro today m ci es acc mo
    have hi := ih (assignModelStep today m ci es acc mo)
    exact ⟨hi.1.trans hs.1, hi.2.trans hs.2⟩

lemma assignFoldModels_items (today : String) (m : AuxPerson) (ci es : String)
    (l : List String) (acc : DB × List (String × String)) :
    ∃ ext, (l.foldl (assignModelStep today m ci es) acc).1.taskItems = acc.1.taskItems ++ ext ∧
      ∀ it ∈ ext, it.status = "pendente" ∧
        ∃ tpl ∈ acc.1.templates, tpl.date = today ∧ it.task ∈ tpl.tasks := by
  induction l generalizing acc with
  | nil => exact ⟨[], by simp, fun it hit => absurd hit (List.not_mem_nil it)⟩
  | cons mo l ih =>
    rw [List.foldl_cons]
    obtain ⟨e1, he1, hp1⟩ := assignModelStep_items today m ci es acc mo
    obtain ⟨e2, he2, hp2⟩ := ih (assignModelStep today m ci es acc mo)
    refine ⟨e1 ++ e2, ?_, ?_⟩
    · rw [he2, he1, List.append_assoc]
    · intro it hit
      rcases List.mem_append.mp hit with h1 | h2
      · exact hp1 it h1
      · have htpl : (assignModelStep today m ci es acc mo).1.templates = acc.1.templates :=
          (assignModelStep_ro today m ci es acc mo).1.2.2.2
        have h3 := hp2 it h2
        rw [htpl] at h3
        exact h3

lemma assignDriver_ro (today : String) (acc : DB × List (String × String))
    (e : AuxPerson × String × String) :
    ROEq (assignDriver today acc e).1 acc.1 ∧
    (assignDriver today acc e).1.convStates = acc.1.convStates := by
  unfold assignDriver
  exact assignFoldModels_ro today e.1 e.2.1 e.2.2 _ acc

lemma assignRunGo_items (today : String) (es : List (AuxPerson × String × String))
    (acc : DB × List (String × String)) :
    ∃ ext, (es.foldl (assignDriver today) acc).1.taskItems = acc.1.taskItems ++ ext ∧
      ∀ it ∈ ext, it.status = "pendente" ∧
        ∃ tpl ∈ acc.1.templates, tpl.date = today ∧ it.task ∈ tpl.tasks := by
  induction es generalizing acc with
  | nil => exact ⟨[], by simp, fun it hit => absurd hit (List.not_mem_nil it)⟩
  | cons e es ih =>
    rw [List.foldl_cons]
    obtain ⟨e1, he1, hp1⟩ := assignFoldModels_items today e.1 e.2.1 e.2.2 _ acc
    obtain ⟨e2, he2, hp2⟩ := ih (assignDriver today acc e)
    refine ⟨e1 ++ e2, ?_, ?_⟩
    · rw [he2]
      show (assignDriver today acc e).1.taskItems ++ e2 = _
      unfold assignDriver
      rw [he1, List.append_assoc]
    · intro it hit
      rcases List.mem_append.mp hit with h1 | h2
      · exact hp1 it h1
      · have htpl : (assignDriver today acc e).1.templates = acc.1.templates :=
          (assignDriver_ro today acc e).1.2.2.2
        have h3 := hp2 it h2
        rw [htpl] at h3
        exact h3

lemma webhookUserFlow_items (db : DB) (chat_id text user_state : String) (user : User) :
    (webhookUserFlow db chat_id text user_state user).db.taskItems = db.taskItems := by
  unfold webhookUserFlow
  repeat' split
  all_goals rfl

lemma webhookUnknownFlow_items (db : DB) (chat_id phone_number : String) :
    (webhookUnknownFlow db chat_id phone_number).db.taskItems = db.taskItems := by
  simp only [webhookUnknownFlow]
  repeat' split
  all_goals rfl

lemma webhookMotoristaFlow_items (db : DB) (today chat_id text : String) (m : AuxPerson) :
    (webhookMotoristaFlow db today chat_id text m).db.taskItems = db.taskItems ∨
    ∃ iid, (webhookMotoristaFlow db today chat_id text m).db.taskItems =
      markConcluida db.taskItems iid := by
  cases hfind : db.taskInstances.find? (fun i => i.motorista_id = m.id ∧ i.date = today) with
  | none =>
    left
    simp only [webhookMotoristaFlow, hfind]
  | some inst =>
    cases hp : parseTarefa text with
    | none =>
      left
      simp only [webhookMotoristaFlow, hfind, hp]
    | some n =>
      by_cases hn : 1 ≤ n ∧
          n ≤ (db.taskItems.filter (fun x => x.maintenance_task_id = inst.id)).length
      · have hlt : n - 1 <
            (db.taskItems.filter (fun x => x.maintenance_task_id = inst.id)).length := by
          omega
        right
        refine ⟨((db.taskItems.filter (fun x => x.maintenance_task_id = inst.id)).get
          ⟨n - 1, hlt⟩).id, ?_⟩
        rw [motoristaFlow_mark db today chat_id text m inst n _ hfind hp hn
          (List.getElem?_eq_getElem hlt)]
        rfl
      · left
        simp only [webhookMotoristaFlow, hfind, hp]
        rw [dif_neg hn]

/-- One webhook invocation either leaves the item table unchanged or
rewrites it by a single status-to-completed update. -/
lemma webhook_items_cases (db : DB) (today : String) (u : Update) :
    (telegram_webhook db today u).db.taskItems = db.taskItems ∨
    ∃ iid, (telegram_webhook db today u).db.taskItems = markConcluida db.taskItems iid := by
  unfold telegram_webhook
  cases hm : u.message with
  | none => exact Or.inl rfl
  | some p =>
    obtain ⟨cid, payload⟩ := p
    simp only
    cases hu : findUserByChat db cid with
    | some user => exact Or.inl (webhookUserFlow_items db cid _ _ user)
    | none =>
      cases ha : findAuxByChat db cid with
      | some mot => exact webhookMotoristaFlow_items db today cid _ mot
      | none => exact Or.inl (webhookUnknownFlow_items db cid _)

lemma generate_items_eq (env : GenEnv) (db : DB) (today : String) :
    (generate_maintenance_tasks env db today).1.taskItems = db.taskItems := by
  unfold generate_maintenance_tasks
  split <;> rfl

/-- C7: under every operation of the system that writes the item table,
an item keeps its id and text, its status either stays or becomes
`concluída`, and a `concluída` status is never reverted. -/
theorem item_status_never_reverts (db : DB) (op : Op) (j : Nat) (it : Item)
    (hj : db.taskItems[j]? = some it) :
    ∃ it2, (stepOp db op).taskItems[j]? = some it2 ∧
      it2.id = it.id ∧ it2.task = it.task ∧
      (it2.status = it.status ∨ it2.status = "concluída") ∧
      (it.status = "concluída" → it2.status = "concluída") := by
  cases op with
  | generate env today =>
    refine ⟨it, ?_, rfl, rfl, Or.inl rfl, fun h => h⟩
    show (generate_maintenance_tasks env db today).1.taskItems[j]? = some it
    rw [generate_items_eq]
    exact hj
  | assign today =>
    obtain ⟨ext, hext, _⟩ := assignRunGo_items today (motoristasOf db) (db, [])
    have hlen : j < db.taskItems.length := by
      by_contra hge
      rw [List.getElem?_eq_none (by omega)] at hj
      exact Option.noConfusion hj
    refine ⟨it, ?_, rfl, rfl, Or.inl rfl, fun h => h⟩
    show (assign_tasks_to_motoristas db today).1.taskItems[j]? = some it
    unfold assign_tasks_to_motoristas
    rw [hext, List.getElem?_append_left hlen]
    exact hj
  | webhook today u =>
    rcases webhook_items_cases db today u with heq | ⟨iid, heq⟩
    · refine ⟨it, ?_, rfl, rfl, Or.inl rfl, fun h => h⟩
      show (telegram_webhook db today u).db.taskItems[j]? = some it
      rw [heq]; exact hj
    · refine ⟨if it.id = iid then { it with status := "concluída" } else it, ?_, ?_, ?_, ?_, ?_⟩
      · show (telegram_webhook db today u).db.taskItems[j]? = _
        rw [heq, markConcluida_getElem?, hj]
        rfl
      · split <;> rfl
      · split <;> rfl
      · split
        · exact Or.inr rfl
        · exact Or.inl rfl
      · intro h
        split
        · rfl
        · exact h

/-- Witness for C7: one assigner run keeps the first pending item of
`dbDriver` intact. -/
theorem item_status_never_reverts_witness :
    dbDriver.taskItems[0]? = some ⟨1, 1, "A", "pendente"⟩ ∧
    ∃ it2, (stepOp dbDriver (Op.assign "2026-10-12")).taskItems[0]? = some it2 ∧
      it2.id = (⟨1, 1, "A", "pendente"⟩ : Item).id ∧
      it2.task = (⟨1, 1, "A", "pendente"⟩ : Item).task ∧
      (it2.status = (⟨1, 1, "A", "pendente"⟩ : Item).status ∨ it2.status = "concluída") ∧
      ((⟨1, 1, "A", "pendente"⟩ : Item).status = "concluída" → it2.status = "concluída") :=
  ⟨by decide,
   item_status_never_reverts dbDriver (Op.assign "2026-10-12") 0 ⟨1, 1, "A", "pendente"⟩
     (by decide)⟩

end Frankstein
